import Mathlib

/-!
Formal model of the `web_crawler_project` crawl pipeline.

The definitions below are a shallow embedding of `src/crawler/crawler.py`
(class `WebCrawler`) and `src/api/app.py` (the FastAPI boundary layer).
Python dictionaries become association lists with dict-assignment
semantics, wall-clock instants become rationals, `time.sleep` is modelled
as advancing the clock by exactly the requested amount, and every network
interaction is an explicit oracle supplied to the call.  Python object
identity matters here: a single `RobotExclusionRulesParser` instance
(`self.robots_parser`) is shared by every cache entry, so parser objects
live in an explicit heap indexed by object id and the cache stores ids.
-/

namespace WebCrawlerModel

/-- Bool prefix test on character lists. -/
def listIsPrefix : List Char → List Char → Bool
  | [], _ => true
  | _ :: _, [] => false
  | a :: as, b :: bs => a == b && listIsPrefix as bs

/-- Does `s` have `pat` as the prefix of one of its suffixes? -/
def containsAux (pat : List Char) : List Char → Bool
  | [] => listIsPrefix pat []
  | c :: t => listIsPrefix pat (c :: t) || containsAux pat t

/-- Python's substring test `pat in s`. -/
def strContains (s pat : String) : Bool :=
  containsAux pat.data s.data

/-- Python's `str.strip()` on a character list (the whitespace characters
that matter for robots.txt lines). -/
def trimChars (l : List Char) : List Char :=
  let ws := fun c : Char => c == ' ' || c == '\t' || c == '\r' || c == '\n'
  ((l.dropWhile ws).reverse.dropWhile ws).reverse

/-- Split a character list on newlines (the line structure used by
`str.splitlines`-style parsing of robots.txt). -/
def splitLinesAux : List Char → List (List Char)
  | [] => [[]]
  | c :: t =>
    if c == '\n' then [] :: splitLinesAux t
    else
      match splitLinesAux t with
      | [] => [[c]]
      | l :: ls => (c :: l) :: ls

/-- ASCII lowercase of one character (Python's `str.lower()` on the ASCII
content types the crawler compares). -/
def charLower (c : Char) : Char :=
  if 65 ≤ c.toNat && c.toNat ≤ 90 then Char.ofNat (c.toNat + 32) else c

/-- Python's `str.lower()`. -/
def strLower (s : String) : String :=
  String.mk (s.data.map charLower)

/-- Python dict indexing `d[k]` / membership `k in d` over an association
list. -/
def dictLookup {α β : Type} [BEq α] : List (α × β) → α → Option β
  | [], _ => none
  | (a, b) :: t, k => if a == k then some b else dictLookup t k

/-- Python dict assignment `d[k] = v`: replace the value when the key is
already present, otherwise append a fresh entry. -/
def dictInsert {α β : Type} [BEq α] (c : List (α × β)) (k : α) (v : β) :
    List (α × β) :=
  if (dictLookup c k).isSome then
    c.map fun p => if p.1 == k then (k, v) else p
  else
    (k, v) :: c

theorem lookup_map_replace {α β : Type} [BEq α] [LawfulBEq α]
    (c : List (α × β)) (k : α) (v : β) :
    dictLookup (c.map fun p => if p.1 == k then (k, v) else p) k =
      if (dictLookup c k).isSome then some v else none := by
  induction c with
  | nil => simp [dictLookup]
  | cons a t ih =>
    by_cases h : a.1 = k
    · subst h
      simp only [List.map_cons]
      rw [if_pos (beq_self_eq_true a.1)]
      simp [dictLookup, ih]
    · have hb : (a.1 == k) = false := by
        rw [beq_eq_false_iff_ne]
        exact h
      simp only [List.map_cons]
      rw [if_neg (by rw [hb]; exact Bool.false_ne_true)]
      simp [dictLookup, hb, ih]

theorem dictInsert_lookup {α β : Type} [BEq α] [LawfulBEq α]
    (c : List (α × β)) (k : α) (v : β) :
    dictLookup (dictInsert c k v) k = some v := by
  unfold dictInsert
  by_cases h : (dictLookup c k).isSome
  · simp [h, lookup_map_replace]
  · simp [h, dictLookup]

/-- Modelled from the spec: the rule state of one `RobotExclusionRulesParser`
object (a third-party library, not part of this repository's sources):
a list of (user-agent pattern, disallowed path prefix) pairs, implementing
the spec's "basic allow/disallow matching".  `parse` replaces this state
wholesale; `is_allowed` consults it. -/
structure RuleSet where
  disallows : List (String × String)
deriving DecidableEq, Repr

/-- One line of robots.txt: track the current user-agent group and collect
Disallow rules for it. -/
def parseRobotsLine (acc : String × List (String × String)) (line : List Char) :
    String × List (String × String) :=
  let l := trimChars line
  if listIsPrefix "User-agent:".data l then
    (String.mk (trimChars (l.drop 11)), acc.2)
  else if listIsPrefix "Disallow:".data l then
    let p := trimChars (l.drop 9)
    if p.isEmpty then acc else (acc.1, acc.2 ++ [(acc.1, String.mk p)])
  else acc

/-- Modelled from the spec: `RobotExclusionRulesParser.parse` — rebuild the
rule set from the robots.txt text; the empty text yields an allow-all rule
set. -/
def parseRobots (text : String) : RuleSet :=
  ⟨((splitLinesAux text.data).foldl parseRobotsLine ("*", [])).2⟩

/-- Modelled from the spec: `RobotExclusionRulesParser.is_allowed(ua, url)` —
false exactly when some Disallow rule for the wildcard or a matching user
agent covers the URL's path. -/
def ruleSetAllows (rs : RuleSet) (ua : String) (path : String) : Bool :=
  !rs.disallows.any fun r =>
    (r.1 == "*" || strContains ua r.1) && listIsPrefix r.2.data path.data

/-- The output of `urllib.parse.urlparse` restricted to the fields the
crawler reads. -/
structure Url where
  scheme : String
  netloc : String
  path : String
deriving DecidableEq, Repr

/-- `f"{parsed_url.scheme}://{parsed_url.netloc}"` — the spec's Origin. -/
def baseUrlOf (u : Url) : String := u.scheme ++ "://" ++ u.netloc

def urlString (u : Url) : String := u.scheme ++ "://" ++ u.netloc ++ u.path

/-- Outcome of the `requests.get(robots_url, ...)` call: an HTTP response
or a raised exception. -/
inductive RobotsResp where
  | ok (status : Nat) (body : String)
  | exc
deriving DecidableEq, Repr

/-- Outcome of `session.get(url, ...)`: a response, a raised
`requests.exceptions.RequestException`, or another raised exception
(the two except clauses in `crawl`). -/
inductive HttpOutcome where
  | resp (status : Nat) (contentType : String) (body : String)
      (headers : List (String × String))
  | requestExc (msg : String)
  | otherExc (msg : String)
deriving DecidableEq, Repr

/-- Outcome of `_fallback_playwright`: the rendered page, a non-200
navigation, or the internal catch-all error dict. -/
inductive RenderOutcome where
  | ok (body : String)
  | httpErr (status : Nat)
  | fail (msg : String)
deriving DecidableEq, Repr

/-- A return value of `WebCrawler.crawl`: either the result dict (url,
status_code, content_type, html_content, ...) or an error dict keyed by
its message. -/
inductive CrawlResult where
  | ok (url : String) (status : Nat) (contentType : String) (body : String)
  | err (msg : String)
deriving DecidableEq, Repr

/-- Constructor arguments of `WebCrawler.__init__` together with the
startup capability probe `self._playwright_available` (fixed at
construction, never re-probed). -/
structure CrawlerConfig where
  delay : Rat
  user_agent : String
  browser_emulation : Bool
  use_fallback : Bool
  playwright_available : Bool
  user_agents : List String
  referrers : List String

/-- The mutable attributes of the shared `WebCrawler` instance.
`parserHeap` is the heap of `RobotExclusionRulesParser` objects;
`robotsParserId` is the reference `self.robots_parser` allocated once in
`__init__`; `robots_cache` maps a base URL to the id of the parser object
stored for it (the source always stores `self.robots_parser` itself). -/
structure CrawlerState where
  respect_robots : Bool
  parserHeap : List RuleSet
  robotsParserId : Nat
  robots_cache : List (String × Nat)
  domain_last_accessed : List (String × Rat)
deriving DecidableEq, Repr

/-- The state of a freshly constructed `WebCrawler`: one parser object on
the heap (fresh parsers allow everything), empty caches. -/
def initCrawlerState (respect_robots : Bool) : CrawlerState :=
  { respect_robots := respect_robots
    parserHeap := [⟨[]⟩]
    robotsParserId := 0
    robots_cache := []
    domain_last_accessed := [] }

/-- Result of `WebCrawler._get_robots_parser`: the parser object returned
(as a heap id), the crawler state afterwards, and whether a robots.txt
fetch was issued by this call. -/
structure RobotsLookupOut where
  pid : Nat
  state : CrawlerState
  fetched : Bool
deriving Repr

/-- The rule set that fetching and parsing robots.txt for `url`'s origin
produces: the response text when the status is 200, the empty text on any
other status or on a raised exception. -/
def robotsRulesOf (net : String → RobotsResp) (url : Url) : RuleSet :=
  match net (baseUrlOf url ++ "/robots.txt") with
  | .ok status body => if status == 200 then parseRobots body else parseRobots ""
  | .exc => parseRobots ""

/-- `WebCrawler._get_robots_parser(url)`.  On a cache hit the cached parser
object is returned and nothing is fetched.  On a miss, robots.txt is
fetched (`net` is the network oracle keyed by the robots URL); the response
text — or the empty text on a non-200 status or a raised exception — is
parsed *into the single shared parser object* `self.robots_parser`, which
is then stored in the cache for this base URL. -/
def getRobotsParser (st : CrawlerState) (net : String → RobotsResp)
    (url : Url) : RobotsLookupOut :=
  match dictLookup st.robots_cache (baseUrlOf url) with
  | some pid => { pid := pid, state := st, fetched := false }
  | none =>
    { pid := st.robotsParserId
      state := { st with
        parserHeap := st.parserHeap.set st.robotsParserId (robotsRulesOf net url)
        robots_cache := (baseUrlOf url, st.robotsParserId) :: st.robots_cache }
      fetched := true }

/-- Result of `WebCrawler._is_crawlable`. -/
structure CrawlCheck where
  allowed : Bool
  state : CrawlerState
  fetched : Bool
  queried : Bool
deriving Repr

/-- `WebCrawler._is_crawlable(url)`: immediately true when
`respect_robots` is off (no robots fetch, no query); otherwise consult the
parser object returned by `_get_robots_parser`. -/
def is_crawlable (cfg : CrawlerConfig) (st : CrawlerState)
    (net : String → RobotsResp) (url : Url) : CrawlCheck :=
  if st.respect_robots = false then
    { allowed := true, state := st, fetched := false, queried := false }
  else
    let g := getRobotsParser st net url
    { allowed := ruleSetAllows (g.state.parserHeap.getD g.pid ⟨[]⟩)
        cfg.user_agent url.path
      state := g.state
      fetched := g.fetched
      queried := true }

/-- Result of `WebCrawler._respect_crawl_delay`: the updated
`domain_last_accessed` map and the instant at which the call returns
(which is also the instant it records). -/
structure RateLimitOut where
  map : List (String × Rat)
  returnedAt : Rat
deriving Repr

/-- `WebCrawler._respect_crawl_delay(url)` with `now` the value of
`time.time()` on entry.  If the domain was accessed before, sleep for the
remaining part of `self.delay`; `time.sleep` is modelled as advancing the
clock by exactly the requested amount.  The new access instant is recorded
before returning. -/
def respect_crawl_delay (delay : Rat) (m : List (String × Rat))
    (domain : String) (now : Rat) : RateLimitOut :=
  match dictLookup m domain with
  | some last =>
    let sleepTime := delay - (now - last)
    let t := if sleepTime > 0 then now + sleepTime else now
    { map := dictInsert m domain t, returnedAt := t }
  | none =>
    { map := dictInsert m domain now, returnedAt := now }

/-- `self.headers` as built in `WebCrawler.__init__` from the configured
user agent. -/
def defaultHeaders (ua : String) : List (String × String) :=
  [("User-Agent", ua),
   ("Accept", "text/html,application/xhtml+xml,application/xml;q=0.9,image/webp,image/apng,*/*;q=0.8,application/signed-exchange;v=b3;q=0.9"),
   ("Accept-Language", "en-US,en;q=0.9"),
   ("DNT", "1"),
   ("Referer", "https://www.google.com/"),
   ("Connection", "keep-alive"),
   ("Upgrade-Insecure-Requests", "1")]

/-- The fixed pool `self.user_agents` from `WebCrawler.__init__`. -/
def defaultUserAgents : List String :=
  ["Mozilla/5.0 (Windows NT 10.0; Win64; x64) AppleWebKit/537.36 (KHTML, like Gecko) Chrome/98.0.4758.102 Safari/537.36",
   "Mozilla/5.0 (Windows NT 10.0; Win64; x64) AppleWebKit/537.36 (KHTML, like Gecko) Chrome/100.0.4896.75 Safari/537.36",
   "Mozilla/5.0 (Macintosh; Intel Mac OS X 10_15_7) AppleWebKit/605.1.15 (KHTML, like Gecko) Version/15.3 Safari/605.1.15",
   "Mozilla/5.0 (Windows NT 10.0; Win64; x64) AppleWebKit/537.36 (KHTML, like Gecko) Edge/99.0.1150.36 Safari/537.36",
   "Mozilla/5.0 (Windows NT 10.0; Win64; x64; rv:98.0) Gecko/20100101 Firefox/98.0"]

/-- The fixed pool `self.referrers` from `WebCrawler.__init__`. -/
def defaultReferrers : List String :=
  ["https://www.google.com/",
   "https://www.google.com/search?q=product+reviews",
   "https://www.bing.com/search?q=product+information",
   "https://search.yahoo.com/search?p=product+details",
   "https://duckduckgo.com/?q=product+specs"]

/-- The referrer synthesized in `crawl` when browser emulation is on:
pick a base referrer (`random.choice` modelled as an oracle index reduced
modulo the pool size) and append the domain's first label unless it is
`www` or `blog` or the domain has a single label. -/
def emulatedReferer (referrers : List String) (refIdx : Nat)
    (netloc : String) : String :=
  let base := referrers.getD (refIdx % referrers.length) ""
  match netloc.splitOn "." with
  | k :: _ :: _ => if k == "www" || k == "blog" then base else base ++ k
  | _ => base

/-- The `current_headers` built in `crawl` when `browser_emulation` is on:
rotated user agent, synthesized referrer, consent cookies and
cache-control headers layered over `self.headers`. -/
def emulatedHeaders (cfg : CrawlerConfig) (uaIdx refIdx : Nat)
    (netloc : String) : List (String × String) :=
  let h0 := defaultHeaders cfg.user_agent
  let h1 := dictInsert h0 "User-Agent"
    (cfg.user_agents.getD (uaIdx % cfg.user_agents.length) cfg.user_agent)
  let h2 := dictInsert h1 "Referer" (emulatedReferer cfg.referrers refIdx netloc)
  let h3 := dictInsert h2 "Cookie" "consent=true; notice_behavior=implied,us"
  let h4 := dictInsert h3 "Cache-Control" "max-age=0"
  dictInsert h4 "Sec-Ch-Ua" "\"Chromium\";v=\"112\", \"Google Chrome\";v=\"112\""

/-- The error dict returned by `crawl` for a robots.txt denial. -/
def policyDeniedMsg : String := "URL disallowed by robots.txt"

/-- One call of `WebCrawler.crawl`, with observability fields recording
what the call did: how many HTTP GETs it issued, whether the Playwright
render fallback ran, whether a robots.txt fetch or query happened, which
headers the GET used and which pre-request jitter sleep was performed. -/
structure CrawlOutcome where
  result : CrawlResult
  state : CrawlerState
  httpGetCount : Nat
  renderInvoked : Bool
  robotsFetched : Bool
  robotsChecked : Bool
  headersUsed : Option (List (String × String))
  preSleep : Option Rat
deriving Repr

/-- The dict `_fallback_playwright` returns, as a `CrawlResult`. -/
def renderToResult (url : String) (r : RenderOutcome) : CrawlResult :=
  match r with
  | .ok body => .ok url 200 "text/html" body
  | .httpErr s => .err ("HTTP error: " ++ toString s)
  | .fail m => .err ("Playwright fallback failed: " ++ m)

/-- The per-call environment of `crawl`: the network oracle for robots.txt,
the outcome of the page GET, the outcome of the Playwright fallback should
it run, the clock on entry to the rate limiter, the jitter drawn by
`random.uniform(0.5, 2.5)` and the `random.choice` indices for the user
agent and referrer pools. -/
structure CrawlEnv where
  robotsNet : String → RobotsResp
  httpGet : HttpOutcome
  render : RenderOutcome
  now : Rat
  jitter : Rat
  uaIdx : Nat
  refIdx : Nat

/-- `WebCrawler.crawl(url)`.  Mirrors the source: robots check (return the
policy error dict without fetching when denied), per-domain rate limit,
jitter sleep, a single GET with emulated-browser headers when
`browser_emulation` is on, immediate error dicts for non-200 statuses and
non-HTML content types, and the Playwright fallback — invoked only from
the two except clauses, and only when `use_fallback` is set and Playwright
is available. -/
def crawl (cfg : CrawlerConfig) (st : CrawlerState) (env : CrawlEnv)
    (url : Url) : CrawlOutcome :=
  let chk := is_crawlable cfg st env.robotsNet url
  if chk.allowed = false then
    { result := .err policyDeniedMsg, state := chk.state, httpGetCount := 0
      renderInvoked := false, robotsFetched := chk.fetched
      robotsChecked := chk.queried, headersUsed := none, preSleep := none }
  else
    let rl := respect_crawl_delay cfg.delay chk.state.domain_last_accessed
      url.netloc env.now
    let st2 := { chk.state with domain_last_accessed := rl.map }
    let hdrs := if cfg.browser_emulation then
        emulatedHeaders cfg env.uaIdx env.refIdx url.netloc
      else defaultHeaders cfg.user_agent
    match env.httpGet with
    | .resp status ct body _h =>
      if status ≠ 200 then
        { result := .err ("HTTP error: " ++ toString status), state := st2
          httpGetCount := 1, renderInvoked := false
          robotsFetched := chk.fetched, robotsChecked := chk.queried
          headersUsed := some hdrs, preSleep := some env.jitter }
      else if strContains (strLower ct) "text/html" = false then
        { result := .err ("Not HTML content: " ++ (strLower ct)), state := st2
          httpGetCount := 1, renderInvoked := false
          robotsFetched := chk.fetched, robotsChecked := chk.queried
          headersUsed := some hdrs, preSleep := some env.jitter }
      else
        { result := .ok (urlString url) status (strLower ct) body, state := st2
          httpGetCount := 1, renderInvoked := false
          robotsFetched := chk.fetched, robotsChecked := chk.queried
          headersUsed := some hdrs, preSleep := some env.jitter }
    | .requestExc msg =>
      if cfg.use_fallback && cfg.playwright_available then
        { result := renderToResult (urlString url) env.render, state := st2
          httpGetCount := 1, renderInvoked := true
          robotsFetched := chk.fetched, robotsChecked := chk.queried
          headersUsed := some hdrs, preSleep := some env.jitter }
      else
        { result := .err msg, state := st2, httpGetCount := 1
          renderInvoked := false, robotsFetched := chk.fetched
          robotsChecked := chk.queried, headersUsed := some hdrs
          preSleep := some env.jitter }
    | .otherExc msg =>
      if cfg.use_fallback && cfg.playwright_available then
        { result := renderToResult (urlString url) env.render, state := st2
          httpGetCount := 1, renderInvoked := true
          robotsFetched := chk.fetched, robotsChecked := chk.queried
          headersUsed := some hdrs, preSleep := some env.jitter }
      else
        { result := .err msg, state := st2, httpGetCount := 1
          renderInvoked := false, robotsFetched := chk.fetched
          robotsChecked := chk.queried, headersUsed := some hdrs
          preSleep := some env.jitter }

/-- The break condition of the retry loop in `process_url`:
`"error" not in crawl_result or "HTTP error: 403" in crawl_result.get("error", "")`. -/
def isTerminalResult (r : CrawlResult) : Bool :=
  match r with
  | .ok _ _ _ _ => true
  | .err m => strContains m "HTTP error: 403"

/-- `max_attempts = 3` in `process_url`. -/
def max_attempts : Nat := 3

/-- The observable effects of the `while attempt < max_attempts` loop in
`process_url`: the final `crawl_result` (`none` models the Python `None`
it starts from), the crawler state left behind, the number of `crawl`
calls made, the backoff sleeps performed between attempts, and totals of
the per-call observability counters. -/
structure LoopOut where
  result : Option CrawlResult
  state : CrawlerState
  crawlCalls : Nat
  backoffs : List Rat
  httpGets : Nat
  renders : Nat
deriving Repr

/-- The retry loop of `process_url`.  `attempt` is the loop variable;
`fuel` is `max_attempts - attempt`, so the loop condition
`attempt < max_attempts` is `fuel ≠ 0`.  `envs n` is the environment of
the `crawl` call made when `attempt = n`; `jit n` is the
`random.uniform(1, 3)` draw of the backoff taken after `attempt` becomes
`n`.  On a non-terminal result the loop sleeps
`(2 ** attempt) + random.uniform(1, 3)` seconds, but only while
`attempt < max_attempts` still holds.  The loop's inner except clause is
not modelled: `crawl` catches every exception internally and always
returns a dict. -/
def processLoop (cfg : CrawlerConfig) (envs : Nat → CrawlEnv)
    (jit : Nat → Rat) (url : Url) :
    CrawlerState → Nat → Nat → LoopOut
  | st, _attempt, 0 =>
    { result := none, state := st, crawlCalls := 0, backoffs := []
      httpGets := 0, renders := 0 }
  | st, attempt, fuel + 1 =>
    let o := crawl cfg st (envs attempt) url
    if isTerminalResult o.result then
      { result := some o.result, state := o.state, crawlCalls := 1
        backoffs := [], httpGets := o.httpGetCount
        renders := if o.renderInvoked then 1 else 0 }
    else
      let attempt' := attempt + 1
      let waits : List Rat :=
        if attempt' < max_attempts then [(2 : Rat) ^ attempt' + jit attempt']
        else []
      let rest := processLoop cfg envs jit url o.state attempt' fuel
      { result := some (rest.result.getD o.result)
        state := rest.state
        crawlCalls := 1 + rest.crawlCalls
        backoffs := waits ++ rest.backoffs
        httpGets := o.httpGetCount + rest.httpGets
        renders := (if o.renderInvoked then 1 else 0) + rest.renders }

/-- An entry of the in-memory `results_cache` of `src/api/app.py`
(`processing`, `completed` with data, or `failed` with an error
message). -/
inductive JobEntry where
  | processing (url : String)
  | completed (url : String)
  | failed (error : String)
deriving DecidableEq, Repr

/-- The first statement of `process_url`:
`crawler.respect_robots = respect_robots` — mutation of the single shared
`WebCrawler` instance. -/
def setRespectRobots (st : CrawlerState) (v : Bool) : CrawlerState :=
  { st with respect_robots := v }

/-- The observable outcome of one `process_url` background task: the
shared crawler state it leaves behind, the `results_cache` entry it
stores, and the loop counters. -/
structure ProcessOut where
  state : CrawlerState
  entry : JobEntry
  crawlCalls : Nat
  backoffs : List Rat
  httpGets : Nat
  renders : Nat
deriving Repr

/-- `process_url(request_id, url, respect_robots)`: set the shared
crawler's `respect_robots` flag, run the retry loop, then store a `failed`
entry when the final `crawl_result` is `None` or carries an error, and a
`completed` entry otherwise (metadata extraction and classification are
excluded collaborators and are modelled as always succeeding). -/
def process_url (cfg : CrawlerConfig) (st : CrawlerState)
    (envs : Nat → CrawlEnv) (jit : Nat → Rat) (url : Url)
    (respect_robots : Bool) : ProcessOut :=
  let st0 := setRespectRobots st respect_robots
  let lo := processLoop cfg envs jit url st0 0 max_attempts
  let entry :=
    match lo.result with
    | none => JobEntry.failed "Maximum retry attempts reached"
    | some (.err m) => JobEntry.failed m
    | some (.ok u _ _ _) => JobEntry.completed u
  { state := lo.state, entry := entry, crawlCalls := lo.crawlCalls
    backoffs := lo.backoffs, httpGets := lo.httpGets
    renders := lo.renders }

/-- The request id generated by the `/crawl` endpoint:
`f"req_{int(time.time())}_{hash(crawl_request.url)}"`.  `pyHash` is
Python's per-process `hash` on the URL; `nowSec` is `int(time.time())`. -/
def requestId (pyHash : String → Int) (nowSec : Int) (url : String) :
    String :=
  "req_" ++ toString nowSec ++ "_" ++ toString (pyHash url)

/-- The synchronous part of the `/crawl` endpoint `crawl_url`: generate the
request id and store the initial `processing` entry in `results_cache`,
returning the id. -/
def crawl_url (pyHash : String → Int)
    (cache : List (String × JobEntry)) (nowSec : Int) (url : String) :
    String × List (String × JobEntry) :=
  let id := requestId pyHash nowSec url
  (id, dictInsert cache id (JobEntry.processing url))

/-- A sequence of `_get_robots_parser` queries threaded through the
crawler state, recording for each query its base URL and whether it issued
a robots.txt fetch. -/
def runRobotsQueries (net : String → RobotsResp) :
    CrawlerState → List Url → CrawlerState × List (String × Bool)
  | st, [] => (st, [])
  | st, u :: rest =>
    let g := getRobotsParser st net u
    let r := runRobotsQueries net g.state rest
    (r.1, (baseUrlOf u, g.fetched) :: r.2)

/-- How many of the recorded queries for base URL `o` issued a fetch. -/
def fetchCountFor (o : String) (l : List (String × Bool)) : Nat :=
  (l.filter fun p => p.1 == o && p.2).length

/-! Characterizations of `_is_crawlable` and stability of the robots
verdict across repeated checks for the same URL. -/

/-- The robots-relevant attributes of the shared crawler (everything
`_is_crawlable` reads or writes). -/
def robotsAgree (s t : CrawlerState) : Prop :=
  s.respect_robots = t.respect_robots ∧
  s.parserHeap = t.parserHeap ∧
  s.robotsParserId = t.robotsParserId ∧
  s.robots_cache = t.robots_cache

theorem robotsAgree_refl (s : CrawlerState) : robotsAgree s s :=
  ⟨rfl, rfl, rfl, rfl⟩

theorem robotsAgree_trans {a b c : CrawlerState} (h1 : robotsAgree a b)
    (h2 : robotsAgree b c) : robotsAgree a c :=
  ⟨h1.1.trans h2.1, h1.2.1.trans h2.2.1, h1.2.2.1.trans h2.2.2.1,
    h1.2.2.2.trans h2.2.2.2⟩

theorem is_crawlable_off (cfg : CrawlerConfig) (st : CrawlerState)
    (net : String → RobotsResp) (url : Url) (hr : st.respect_robots = false) :
    is_crawlable cfg st net url =
      { allowed := true, state := st, fetched := false, queried := false } := by
  simp [is_crawlable, hr]

theorem is_crawlable_on_hit (cfg : CrawlerConfig) (st : CrawlerState)
    (net : String → RobotsResp) (url : Url) (pid : Nat)
    (hr : st.respect_robots = true)
    (hm : dictLookup st.robots_cache (baseUrlOf url) = some pid) :
    is_crawlable cfg st net url =
      { allowed := ruleSetAllows (st.parserHeap.getD pid ⟨[]⟩)
          cfg.user_agent url.path
        state := st, fetched := false, queried := true } := by
  simp [is_crawlable, hr, getRobotsParser, hm]

theorem is_crawlable_on_miss (cfg : CrawlerConfig) (st : CrawlerState)
    (net : String → RobotsResp) (url : Url)
    (hr : st.respect_robots = true)
    (hm : dictLookup st.robots_cache (baseUrlOf url) = none) :
    is_crawlable cfg st net url =
      { allowed := ruleSetAllows
          ((st.parserHeap.set st.robotsParserId (robotsRulesOf net url)).getD
            st.robotsParserId ⟨[]⟩) cfg.user_agent url.path
        state := { st with
          parserHeap := st.parserHeap.set st.robotsParserId (robotsRulesOf net url)
          robots_cache := (baseUrlOf url, st.robotsParserId) :: st.robots_cache }
        fetched := true, queried := true } := by
  simp [is_crawlable, hr, getRobotsParser, hm]

/-- Checking the same URL again — from any state whose robots-relevant
attributes agree with the state the first check produced — yields the same
verdict, changes nothing, and fetches nothing. -/
theorem is_crawlable_stable (cfg : CrawlerConfig) (st st₂ : CrawlerState)
    (net net' : String → RobotsResp) (url : Url)
    (h : robotsAgree st₂ (is_crawlable cfg st net url).state) :
    (is_crawlable cfg st₂ net' url).allowed = (is_crawlable cfg st net url).allowed ∧
    (is_crawlable cfg st₂ net' url).state = st₂ ∧
    (is_crawlable cfg st₂ net' url).fetched = false := by
  cases hr : st.respect_robots with
  | false =>
    simp only [is_crawlable_off cfg st net url hr] at h ⊢
    obtain ⟨ha, hh, hi, hc⟩ := h
    have h2 : st₂.respect_robots = false := by rw [ha]; exact hr
    simp only [is_crawlable_off cfg st₂ net' url h2]
    simp
  | true =>
    cases hm : dictLookup st.robots_cache (baseUrlOf url) with
    | some pid =>
      simp only [is_crawlable_on_hit cfg st net url pid hr hm] at h ⊢
      obtain ⟨ha, hh, hi, hc⟩ := h
      have h2 : st₂.respect_robots = true := by rw [ha]; exact hr
      have hm2 : dictLookup st₂.robots_cache (baseUrlOf url) = some pid := by
        rw [hc]; exact hm
      simp only [is_crawlable_on_hit cfg st₂ net' url pid h2 hm2]
      simp [hh]
    | none =>
      simp only [is_crawlable_on_miss cfg st net url hr hm] at h ⊢
      obtain ⟨ha, hh, hi, hc⟩ := h
      have h2 : st₂.respect_robots = true := by rw [ha]; exact hr
      have hm2 : dictLookup st₂.robots_cache (baseUrlOf url) =
          some st.robotsParserId := by
        rw [hc]
        simp [dictLookup]
      simp only [is_crawlable_on_hit cfg st₂ net' url st.robotsParserId h2 hm2]
      simp [hh]

theorem is_crawlable_queried (cfg : CrawlerConfig) (st : CrawlerState)
    (net : String → RobotsResp) (url : Url) :
    (is_crawlable cfg st net url).queried = st.respect_robots := by
  cases hr : st.respect_robots with
  | false => simp [is_crawlable_off cfg st net url hr, hr]
  | true =>
    cases hm : dictLookup st.robots_cache (baseUrlOf url) with
    | some pid => simp [is_crawlable_on_hit cfg st net url pid hr hm, hr]
    | none => simp [is_crawlable_on_miss cfg st net url hr hm, hr]

theorem is_crawlable_respect (cfg : CrawlerConfig) (st : CrawlerState)
    (net : String → RobotsResp) (url : Url) :
    (is_crawlable cfg st net url).state.respect_robots = st.respect_robots := by
  cases hr : st.respect_robots with
  | false => simp [is_crawlable_off cfg st net url hr, hr]
  | true =>
    cases hm : dictLookup st.robots_cache (baseUrlOf url) with
    | some pid => simp [is_crawlable_on_hit cfg st net url pid hr hm, hr]
    | none => simp [is_crawlable_on_miss cfg st net url hr hm, hr]

/-- A crawl only ever changes the robots-relevant attributes through its
robots check: afterwards they agree with the check's output state. -/
theorem crawl_robotsAgree (cfg : CrawlerConfig) (st : CrawlerState)
    (env : CrawlEnv) (url : Url) :
    robotsAgree (crawl cfg st env url).state
      (is_crawlable cfg st env.robotsNet url).state := by
  cases hA : (is_crawlable cfg st env.robotsNet url).allowed with
  | false =>
    simp only [crawl, hA]
    simp [robotsAgree]
  | true =>
    simp only [crawl, hA]
    cases hg : env.httpGet with
    | resp status ct body hs =>
      by_cases h1 : status = 200
      · by_cases h2 : strContains (strLower ct) "text/html" = false
        · simp [h1, h2, robotsAgree]
        · simp [h1, h2, robotsAgree]
      · simp [h1, robotsAgree]
    | requestExc msg =>
      by_cases h1 : (cfg.use_fallback && cfg.playwright_available) = true
      · simp [h1, robotsAgree]
      · simp [h1, robotsAgree]
    | otherExc msg =>
      by_cases h1 : (cfg.use_fallback && cfg.playwright_available) = true
      · simp [h1, robotsAgree]
      · simp [h1, robotsAgree]

theorem crawl_robotsChecked (cfg : CrawlerConfig) (st : CrawlerState)
    (env : CrawlEnv) (url : Url) :
    (crawl cfg st env url).robotsChecked = st.respect_robots := by
  cases hA : (is_crawlable cfg st env.robotsNet url).allowed with
  | false =>
    simp only [crawl, hA]
    simp [is_crawlable_queried]
  | true =>
    simp only [crawl, hA]
    cases hg : env.httpGet with
    | resp status ct body hs =>
      by_cases h1 : status = 200
      · by_cases h2 : strContains (strLower ct) "text/html" = false
        · simp [h1, h2, is_crawlable_queried]
        · simp [h1, h2, is_crawlable_queried]
      · simp [h1, is_crawlable_queried]
    | requestExc msg =>
      by_cases h1 : (cfg.use_fallback && cfg.playwright_available) = true
      · simp [h1, is_crawlable_queried]
      · simp [h1, is_crawlable_queried]
    | otherExc msg =>
      by_cases h1 : (cfg.use_fallback && cfg.playwright_available) = true
      · simp [h1, is_crawlable_queried]
      · simp [h1, is_crawlable_queried]

theorem crawl_respect_preserved (cfg : CrawlerConfig) (st : CrawlerState)
    (env : CrawlEnv) (url : Url) :
    (crawl cfg st env url).state.respect_robots = st.respect_robots := by
  have h := (crawl_robotsAgree cfg st env url).1
  rw [h, is_crawlable_respect]

theorem processLoop_respect (cfg : CrawlerConfig) (envs : Nat → CrawlEnv)
    (jit : Nat → Rat) (url : Url) (st : CrawlerState) (attempt fuel : Nat) :
    (processLoop cfg envs jit url st attempt fuel).state.respect_robots =
      st.respect_robots := by
  induction fuel generalizing st attempt with
  | zero => rfl
  | succ n ih =>
    simp only [processLoop]
    split
    · exact crawl_respect_preserved cfg st (envs attempt) url
    · simp only []
      rw [ih]
      exact crawl_respect_preserved cfg st (envs attempt) url

/-- C10: the per-request `respect_robots` option acts by mutating the one
shared crawler instance: entering `process_url` with flag `v` sets the
shared flag to `v` and leaves it at `v` when the task finishes, and every
`crawl` decides whether to run the robots check from the flag currently
stored in the shared state — not from the flag of its own submission — so
a crawl performed after another job stored `false` always issues the GET
and never consults robots.txt. -/
theorem respect_robots_shared_mutation (cfg : CrawlerConfig)
    (st : CrawlerState) (envs : Nat → CrawlEnv) (jit : Nat → Rat)
    (url url₂ : Url) (v : Bool) (env : CrawlEnv) :
    (setRespectRobots st v).respect_robots = v ∧
    (process_url cfg st envs jit url v).state.respect_robots = v ∧
    (crawl cfg st env url₂).robotsChecked = st.respect_robots ∧
    (crawl cfg (setRespectRobots st v) env url₂).robotsChecked = v ∧
    (crawl cfg (setRespectRobots st false) env url₂).robotsFetched = false ∧
    (crawl cfg (setRespectRobots st false) env url₂).httpGetCount = 1 := by
  have hA : (is_crawlable cfg (setRespectRobots st false) env.robotsNet url₂).allowed
      = true := by
    simp [is_crawlable_off cfg (setRespectRobots st false) env.robotsNet url₂ rfl]
  have hF : (is_crawlable cfg (setRespectRobots st false) env.robotsNet url₂).fetched
      = false := by
    simp [is_crawlable_off cfg (setRespectRobots st false) env.robotsNet url₂ rfl]
  refine ⟨rfl, ?_, crawl_robotsChecked cfg st env url₂, ?_, ?_, ?_⟩
  · simp only [process_url]
    rw [processLoop_respect]
    simp [setRespectRobots]
  · rw [crawl_robotsChecked]
    simp [setRespectRobots]
  · simp only [crawl, hA]
    cases hg : env.httpGet with
    | resp status ct body hs =>
      by_cases h1 : status = 200
      · by_cases h2 : strContains (strLower ct) "text/html" = false
        · simp [h1, h2, hF]
        · simp [h1, h2, hF]
      · simp [h1, hF]
    | requestExc msg =>
      by_cases h1 : (cfg.use_fallback && cfg.playwright_available) = true
      · simp [h1, hF]
      · simp [h1, hF]
    | otherExc msg =>
      by_cases h1 : (cfg.use_fallback && cfg.playwright_available) = true
      · simp [h1, hF]
      · simp [h1, hF]
  · simp only [crawl, hA]
    cases hg : env.httpGet with
    | resp status ct body hs =>
      by_cases h1 : status = 200
      · by_cases h2 : strContains (strLower ct) "text/html" = false
        · simp [h1, h2]
        · simp [h1, h2]
      · simp [h1]
    | requestExc msg =>
      by_cases h1 : (cfg.use_fallback && cfg.playwright_available) = true
      · simp [h1]
      · simp [h1]
    | otherExc msg =>
      by_cases h1 : (cfg.use_fallback && cfg.playwright_available) = true
      · simp [h1]
      · simp [h1]

/-! Unfoldings of the retry loop. -/

theorem processLoop_three_retries (cfg : CrawlerConfig) (envs : Nat → CrawlEnv)
    (jit : Nat → Rat) (url : Url) (st0 : CrawlerState) (o0 o1 o2 : CrawlOutcome)
    (e0 : crawl cfg st0 (envs 0) url = o0) (t0 : isTerminalResult o0.result = false)
    (e1 : crawl cfg o0.state (envs 1) url = o1) (t1 : isTerminalResult o1.result = false)
    (e2 : crawl cfg o1.state (envs 2) url = o2) (t2 : isTerminalResult o2.result = false) :
    processLoop cfg envs jit url st0 0 max_attempts =
      { result := some o2.result
        state := o2.state
        crawlCalls := 3
        backoffs := [(2 : Rat) ^ (1 : Nat) + jit 1, (2 : Rat) ^ (2 : Nat) + jit 2]
        httpGets := o0.httpGetCount + (o1.httpGetCount + o2.httpGetCount)
        renders := (if o0.renderInvoked then 1 else 0) +
          ((if o1.renderInvoked then 1 else 0) + (if o2.renderInvoked then 1 else 0)) } := by
  simp [processLoop, max_attempts, e0, t0, e1, t1, e2, t2]

theorem processLoop_first_terminal (cfg : CrawlerConfig) (envs : Nat → CrawlEnv)
    (jit : Nat → Rat) (url : Url) (st0 : CrawlerState) (o0 : CrawlOutcome)
    (e0 : crawl cfg st0 (envs 0) url = o0) (t0 : isTerminalResult o0.result = true) :
    processLoop cfg envs jit url st0 0 max_attempts =
      { result := some o0.result, state := o0.state, crawlCalls := 1
        backoffs := [], httpGets := o0.httpGetCount
        renders := if o0.renderInvoked then 1 else 0 } := by
  simp [processLoop, max_attempts, e0, t0]

/-! Per-field characterizations of one crawl under each environment. -/

theorem crawl_denied_fields (cfg : CrawlerConfig) (st : CrawlerState)
    (env : CrawlEnv) (url : Url)
    (h : (is_crawlable cfg st env.robotsNet url).allowed = false) :
    (crawl cfg st env url).result = CrawlResult.err policyDeniedMsg ∧
    (crawl cfg st env url).httpGetCount = 0 ∧
    (crawl cfg st env url).renderInvoked = false := by
  refine ⟨?_, ?_, ?_⟩ <;> simp [crawl, h]

theorem crawl_status_resp_fields (cfg : CrawlerConfig) (st : CrawlerState)
    (env : CrawlEnv) (url : Url) (status : Nat) (ct body : String)
    (hs : List (String × String))
    (hA : (is_crawlable cfg st env.robotsNet url).allowed = true)
    (hg : env.httpGet = HttpOutcome.resp status ct body hs)
    (h200 : ¬ status = 200) :
    (crawl cfg st env url).result =
      CrawlResult.err ("HTTP error: " ++ toString status) ∧
    (crawl cfg st env url).httpGetCount = 1 ∧
    (crawl cfg st env url).renderInvoked = false := by
  refine ⟨?_, ?_, ?_⟩ <;> simp [crawl, hA, hg, h200]

theorem crawl_transport_no_fallback_fields (cfg : CrawlerConfig)
    (st : CrawlerState) (env : CrawlEnv) (url : Url) (msg : String)
    (hA : (is_crawlable cfg st env.robotsNet url).allowed = true)
    (hg : env.httpGet = HttpOutcome.requestExc msg)
    (hfb : (cfg.use_fallback && cfg.playwright_available) = false) :
    (crawl cfg st env url).result = CrawlResult.err msg ∧
    (crawl cfg st env url).httpGetCount = 1 ∧
    (crawl cfg st env url).renderInvoked = false := by
  refine ⟨?_, ?_, ?_⟩ <;> simp [crawl, hA, hg, hfb]

/-- The robots verdict for a URL is stable across the second and third
crawl of that URL in a retry loop: each later check answers exactly what
the first check answered. -/
theorem crawl_verdict_chain (cfg : CrawlerConfig) (st0 : CrawlerState)
    (envs : Nat → CrawlEnv) (url : Url) :
    (is_crawlable cfg (crawl cfg st0 (envs 0) url).state (envs 1).robotsNet
        url).allowed = (is_crawlable cfg st0 (envs 0).robotsNet url).allowed ∧
    (is_crawlable cfg
        (crawl cfg (crawl cfg st0 (envs 0) url).state (envs 1) url).state
        (envs 2).robotsNet url).allowed =
      (is_crawlable cfg st0 (envs 0).robotsNet url).allowed := by
  have hs1 := is_crawlable_stable cfg st0 (crawl cfg st0 (envs 0) url).state
    (envs 0).robotsNet (envs 1).robotsNet url (crawl_robotsAgree cfg st0 (envs 0) url)
  refine ⟨hs1.1, ?_⟩
  have hag1 : robotsAgree
      (crawl cfg (crawl cfg st0 (envs 0) url).state (envs 1) url).state
      (is_crawlable cfg st0 (envs 0).robotsNet url).state := by
    have h1 := crawl_robotsAgree cfg (crawl cfg st0 (envs 0) url).state (envs 1) url
    rw [hs1.2.1] at h1
    exact robotsAgree_trans h1 (crawl_robotsAgree cfg st0 (envs 0) url)
  exact (is_crawlable_stable cfg st0 _ (envs 0).robotsNet (envs 2).robotsNet
    url hag1).1

/-- C1 (amended): a job submitted with `respect_robots=True` for a URL the
robots rules deny does resolve Failed with the robots error and the fetch
chain (HTTP GET, render fallback) is never invoked in any attempt, but the
orchestrator does not treat the denial as terminal: it makes 3 crawl
attempts with backoff sleeps of `2 ** n + uniform(1, 3)` seconds before
attempts 2 and 3. -/
theorem policy_denied_fails_without_fetch_but_retries (cfg : CrawlerConfig)
    (st : CrawlerState) (envs : Nat → CrawlEnv) (jit : Nat → Rat) (url : Url)
    (hd : (is_crawlable cfg (setRespectRobots st true) (envs 0).robotsNet
      url).allowed = false) :
    (process_url cfg st envs jit url true).entry =
      JobEntry.failed policyDeniedMsg ∧
    (process_url cfg st envs jit url true).httpGets = 0 ∧
    (process_url cfg st envs jit url true).renders = 0 ∧
    (process_url cfg st envs jit url true).crawlCalls = 3 ∧
    (process_url cfg st envs jit url true).backoffs =
      [(2 : Rat) ^ (1 : Nat) + jit 1, (2 : Rat) ^ (2 : Nat) + jit 2] := by
  have hchain := crawl_verdict_chain cfg (setRespectRobots st true) envs url
  have hd1 : (is_crawlable cfg
      (crawl cfg (setRespectRobots st true) (envs 0) url).state
      (envs 1).robotsNet url).allowed = false := by rw [hchain.1]; exact hd
  have hd2 : (is_crawlable cfg
      (crawl cfg (crawl cfg (setRespectRobots st true) (envs 0) url).state
        (envs 1) url).state (envs 2).robotsNet url).allowed = false := by
    rw [hchain.2]; exact hd
  obtain ⟨r0res, r0get, r0ren⟩ :=
    crawl_denied_fields cfg (setRespectRobots st true) (envs 0) url hd
  obtain ⟨r1res, r1get, r1ren⟩ := crawl_denied_fields cfg _ (envs 1) url hd1
  obtain ⟨r2res, r2get, r2ren⟩ := crawl_denied_fields cfg _ (envs 2) url hd2
  have t0 : isTerminalResult
      (crawl cfg (setRespectRobots st true) (envs 0) url).result = false := by
    rw [r0res]; decide
  have t1 : isTerminalResult
      (crawl cfg (crawl cfg (setRespectRobots st true) (envs 0) url).state
        (envs 1) url).result = false := by
    rw [r1res]; decide
  have t2 : isTerminalResult
      (crawl cfg (crawl cfg (crawl cfg (setRespectRobots st true) (envs 0)
        url).state (envs 1) url).state (envs 2) url).result = false := by
    rw [r2res]; decide
  have hloop := processLoop_three_retries cfg envs jit url
    (setRespectRobots st true) _ _ _ rfl t0 rfl t1 rfl t2
  refine ⟨?_, ?_, ?_, ?_, ?_⟩ <;>
    simp [process_url, hloop, r0res, r0get, r0ren, r1res, r1get, r1ren,
      r2res, r2get, r2ren]

/-- C2 (amended): a job whose GET returns HTTP 404 is retried, because the
orchestrator treats an error as terminal only when its message contains
"HTTP error: 403": the job reaches Failed("HTTP error: 404") only after 3
attempts, with backoff sleeps of `2 ** n + uniform(1, 3)` seconds before
attempts 2 and 3 — not after exactly 1 attempt with no backoff. -/
theorem http404_retried_three_attempts (cfg : CrawlerConfig)
    (st : CrawlerState) (envs : Nat → CrawlEnv) (jit : Nat → Rat) (url : Url)
    (v : Bool) (cts bodies : Nat → String)
    (hds : Nat → List (String × String))
    (hA : (is_crawlable cfg (setRespectRobots st v) (envs 0).robotsNet
      url).allowed = true)
    (hg : ∀ i, i < 3 → (envs i).httpGet =
      HttpOutcome.resp 404 (cts i) (bodies i) (hds i)) :
    (process_url cfg st envs jit url v).entry =
      JobEntry.failed "HTTP error: 404" ∧
    (process_url cfg st envs jit url v).crawlCalls = 3 ∧
    (process_url cfg st envs jit url v).renders = 0 ∧
    (process_url cfg st envs jit url v).backoffs =
      [(2 : Rat) ^ (1 : Nat) + jit 1, (2 : Rat) ^ (2 : Nat) + jit 2] := by
  have hchain := crawl_verdict_chain cfg (setRespectRobots st v) envs url
  have hA1 : (is_crawlable cfg
      (crawl cfg (setRespectRobots st v) (envs 0) url).state
      (envs 1).robotsNet url).allowed = true := by rw [hchain.1]; exact hA
  have hA2 : (is_crawlable cfg
      (crawl cfg (crawl cfg (setRespectRobots st v) (envs 0) url).state
        (envs 1) url).state (envs 2).robotsNet url).allowed = true := by
    rw [hchain.2]; exact hA
  obtain ⟨r0res, r0get, r0ren⟩ := crawl_status_resp_fields cfg
    (setRespectRobots st v) (envs 0) url 404 (cts 0) (bodies 0) (hds 0)
    hA (hg 0 (by omega)) (by omega)
  obtain ⟨r1res, r1get, r1ren⟩ := crawl_status_resp_fields cfg
    _ (envs 1) url 404 (cts 1) (bodies 1) (hds 1)
    hA1 (hg 1 (by omega)) (by omega)
  obtain ⟨r2res, r2get, r2ren⟩ := crawl_status_resp_fields cfg
    _ (envs 2) url 404 (cts 2) (bodies 2) (hds 2)
    hA2 (hg 2 (by omega)) (by omega)
  have t0 : isTerminalResult
      (crawl cfg (setRespectRobots st v) (envs 0) url).result = false := by
    rw [r0res]; decide
  have t1 : isTerminalResult
      (crawl cfg (crawl cfg (setRespectRobots st v) (envs 0) url).state
        (envs 1) url).result = false := by
    rw [r1res]; decide
  have t2 : isTerminalResult
      (crawl cfg (crawl cfg (crawl cfg (setRespectRobots st v) (envs 0)
        url).state (envs 1) url).state (envs 2) url).result = false := by
    rw [r2res]; decide
  have hloop := processLoop_three_retries cfg envs jit url
    (setRespectRobots st v) _ _ _ rfl t0 rfl t1 rfl t2
  refine ⟨?_, ?_, ?_, ?_⟩ <;>
    · simp [process_url, hloop, r0res, r0get, r0ren, r1res, r1get, r1ren,
        r2res, r2get, r2ren]
      try decide

/-- C5: a job whose every attempt fails with a transport-level error (its
GET raises `requests.exceptions.RequestException` and the render fallback
is not available to rescue it) reaches Failed after exactly
`max_attempts = 3` attempts, carrying the last error; a backoff of
`2 ** n + uniform(1, 3)` seconds — hence at least `2 ** n` seconds — is
slept only before attempts 2 and 3, and no wait follows the final
attempt. -/
theorem transport_errors_fail_after_three_attempts_with_backoff
    (cfg : CrawlerConfig) (st : CrawlerState) (envs : Nat → CrawlEnv)
    (jit : Nat → Rat) (url : Url) (v : Bool) (msgs : Nat → String)
    (hA : (is_crawlable cfg (setRespectRobots st v) (envs 0).robotsNet
      url).allowed = true)
    (htr : ∀ i, i < 3 → (envs i).httpGet = HttpOutcome.requestExc (msgs i))
    (hmsg : ∀ i, i < 3 → strContains (msgs i) "HTTP error: 403" = false)
    (hfb : (cfg.use_fallback && cfg.playwright_available) = false)
    (hjit : ∀ i, 1 ≤ jit i ∧ jit i ≤ 3) :
    (process_url cfg st envs jit url v).crawlCalls = 3 ∧
    (process_url cfg st envs jit url v).entry = JobEntry.failed (msgs 2) ∧
    (process_url cfg st envs jit url v).renders = 0 ∧
    (process_url cfg st envs jit url v).backoffs =
      [(2 : Rat) ^ (1 : Nat) + jit 1, (2 : Rat) ^ (2 : Nat) + jit 2] ∧
    (2 : Rat) ^ (1 : Nat) ≤ (2 : Rat) ^ (1 : Nat) + jit 1 ∧
    (2 : Rat) ^ (2 : Nat) ≤ (2 : Rat) ^ (2 : Nat) + jit 2 := by
  have hchain := crawl_verdict_chain cfg (setRespectRobots st v) envs url
  have hA1 : (is_crawlable cfg
      (crawl cfg (setRespectRobots st v) (envs 0) url).state
      (envs 1).robotsNet url).allowed = true := by rw [hchain.1]; exact hA
  have hA2 : (is_crawlable cfg
      (crawl cfg (crawl cfg (setRespectRobots st v) (envs 0) url).state
        (envs 1) url).state (envs 2).robotsNet url).allowed = true := by
    rw [hchain.2]; exact hA
  obtain ⟨r0res, r0get, r0ren⟩ := crawl_transport_no_fallback_fields cfg
    (setRespectRobots st v) (envs 0) url (msgs 0) hA (htr 0 (by omega)) hfb
  obtain ⟨r1res, r1get, r1ren⟩ := crawl_transport_no_fallback_fields cfg
    _ (envs 1) url (msgs 1) hA1 (htr 1 (by omega)) hfb
  obtain ⟨r2res, r2get, r2ren⟩ := crawl_transport_no_fallback_fields cfg
    _ (envs 2) url (msgs 2) hA2 (htr 2 (by omega)) hfb
  have t0 : isTerminalResult
      (crawl cfg (setRespectRobots st v) (envs 0) url).result = false := by
    rw [r0res]
    simp [isTerminalResult, hmsg 0 (by omega)]
  have t1 : isTerminalResult
      (crawl cfg (crawl cfg (setRespectRobots st v) (envs 0) url).state
        (envs 1) url).result = false := by
    rw [r1res]
    simp [isTerminalResult, hmsg 1 (by omega)]
  have t2 : isTerminalResult
      (crawl cfg (crawl cfg (crawl cfg (setRespectRobots st v) (envs 0)
        url).state (envs 1) url).state (envs 2) url).result = false := by
    rw [r2res]
    simp [isTerminalResult, hmsg 2 (by omega)]
  have hloop := processLoop_three_retries cfg envs jit url
    (setRespectRobots st v) _ _ _ rfl t0 rfl t1 rfl t2
  have hb1 : (2 : Rat) ^ (1 : Nat) ≤ (2 : Rat) ^ (1 : Nat) + jit 1 := by
    have := (hjit 1).1
    linarith
  have hb2 : (2 : Rat) ^ (2 : Nat) ≤ (2 : Rat) ^ (2 : Nat) + jit 2 := by
    have := (hjit 2).1
    linarith
  refine ⟨?_, ?_, ?_, ?_, hb1, hb2⟩ <;>
    simp [process_url, hloop, r0res, r0get, r0ren, r1res, r1get, r1ren,
      r2res, r2get, r2ren]

/-- C3 (amended): the emulated-browser identity is not a separate retry
strategy: whenever `browser_emulation` is on, the single HTTP GET itself
carries the emulated headers (rotated user agent, synthesized referrer,
consent cookies) after the random pre-request jitter sleep, and when that
GET raises a transport-level error the Playwright render fallback is
invoked directly — exactly one HTTP GET precedes it, with no second
emulated HTTP retry; if the (emulated) GET succeeds with 200/text/html the
crawl returns its document and the render fallback does not run. -/
theorem single_emulated_get_then_render_fallback (cfg : CrawlerConfig)
    (st : CrawlerState) (env₁ env₂ : CrawlEnv) (url : Url)
    (msg ct body : String) (hs : List (String × String))
    (hbe : cfg.browser_emulation = true)
    (hfb : cfg.use_fallback = true) (hpw : cfg.playwright_available = true)
    (hA1 : (is_crawlable cfg st env₁.robotsNet url).allowed = true)
    (hA2 : (is_crawlable cfg st env₂.robotsNet url).allowed = true)
    (hg1 : env₁.httpGet = HttpOutcome.requestExc msg)
    (hg2 : env₂.httpGet = HttpOutcome.resp 200 ct body hs)
    (hhtml : strContains (strLower ct) "text/html" = true) :
    (crawl cfg st env₁ url).headersUsed =
      some (emulatedHeaders cfg env₁.uaIdx env₁.refIdx url.netloc) ∧
    (crawl cfg st env₁ url).preSleep = some env₁.jitter ∧
    (crawl cfg st env₁ url).httpGetCount = 1 ∧
    (crawl cfg st env₁ url).renderInvoked = true ∧
    (crawl cfg st env₁ url).result = renderToResult (urlString url) env₁.render ∧
    (crawl cfg st env₂ url).renderInvoked = false ∧
    (crawl cfg st env₂ url).httpGetCount = 1 ∧
    (crawl cfg st env₂ url).result =
      CrawlResult.ok (urlString url) 200 (strLower ct) body := by
  refine ⟨?_, ?_, ?_, ?_, ?_, ?_, ?_, ?_⟩ <;>
    simp [crawl, hbe, hfb, hpw, hA1, hA2, hg1, hg2, hhtml]

/-- C6: within one call of `crawl`, a clean non-200 HTTP status or an
unsupported (non-`text/html`) content type is returned immediately as the
call's result — the render fallback is not invoked for either — while a
raised transport exception escalates to the render fallback exactly when
`use_fallback` is set and Playwright is available. -/
theorem status_and_content_errors_return_immediately (cfg : CrawlerConfig)
    (st : CrawlerState) (env₁ env₂ env₃ : CrawlEnv) (url : Url)
    (status : Nat) (ct body ct₂ body₂ msg : String)
    (hs hs₂ : List (String × String))
    (hA1 : (is_crawlable cfg st env₁.robotsNet url).allowed = true)
    (hA2 : (is_crawlable cfg st env₂.robotsNet url).allowed = true)
    (hA3 : (is_crawlable cfg st env₃.robotsNet url).allowed = true)
    (hg1 : env₁.httpGet = HttpOutcome.resp status ct body hs)
    (h200 : ¬ status = 200)
    (hg2 : env₂.httpGet = HttpOutcome.resp 200 ct₂ body₂ hs₂)
    (hhtml : strContains (strLower ct₂) "text/html" = false)
    (hg3 : env₃.httpGet = HttpOutcome.requestExc msg) :
    (crawl cfg st env₁ url).result =
      CrawlResult.err ("HTTP error: " ++ toString status) ∧
    (crawl cfg st env₁ url).renderInvoked = false ∧
    (crawl cfg st env₂ url).result =
      CrawlResult.err ("Not HTML content: " ++ strLower ct₂) ∧
    (crawl cfg st env₂ url).renderInvoked = false ∧
    (crawl cfg st env₃ url).renderInvoked =
      (cfg.use_fallback && cfg.playwright_available) := by
  refine ⟨?_, ?_, ?_, ?_, ?_⟩
  · simp [crawl, hA1, hg1, h200]
  · simp [crawl, hA1, hg1, h200]
  · simp [crawl, hA2, hg2, hhtml]
  · simp [crawl, hA2, hg2, hhtml]
  · by_cases hfb : (cfg.use_fallback && cfg.playwright_available) = true
    · simp [crawl, hA3, hg3, hfb]
    · rw [Bool.not_eq_true] at hfb
      simp [crawl, hA3, hg3, hfb]

/-! Concrete fixtures used by the scenario theorems. -/

/-- The crawler as constructed in `src/api/app.py` under the default
environment (delay 2.0, defaults on), in a runtime where Playwright is
available. -/
def appConfig : CrawlerConfig :=
  { delay := 2
    user_agent := "Mozilla/5.0 (Windows NT 10.0; Win64; x64) AppleWebKit/537.36 (KHTML, like Gecko) Chrome/98.0.4758.102 Safari/537.36"
    browser_emulation := true
    use_fallback := true
    playwright_available := true
    user_agents := defaultUserAgents
    referrers := defaultReferrers }

/-- The same crawler in a runtime without Playwright. -/
def appConfigNoRender : CrawlerConfig :=
  { appConfig with playwright_available := false }

/-- A robots.txt body disallowing `/search` for every agent. -/
def disallowSearchRobots : String :=
  "User-agent: *\nDisallow: /search"

/-- Network oracle: every origin serves `disallowSearchRobots`. -/
def netDisallowSearch : String → RobotsResp :=
  fun _ => RobotsResp.ok 200 disallowSearchRobots

/-- Network oracle: `a.example` serves `disallowSearchRobots`, every other
origin serves an empty robots.txt. -/
def netAB : String → RobotsResp :=
  fun u => if u == "https://a.example/robots.txt" then
      RobotsResp.ok 200 disallowSearchRobots
    else RobotsResp.ok 200 ""

def searchUrl : Url := { scheme := "https", netloc := "site.example", path := "/search" }

def pageUrl : Url := { scheme := "https", netloc := "site.example", path := "/page" }

def urlA : Url := { scheme := "https", netloc := "a.example", path := "/search" }

def urlB : Url := { scheme := "https", netloc := "b.example", path := "/page" }

/-- A crawl environment fixture. -/
def mkEnv (net : String → RobotsResp) (hg : HttpOutcome)
    (rr : RenderOutcome) : CrawlEnv :=
  { robotsNet := net, httpGet := hg, render := rr, now := 0, jitter := 1
    uaIdx := 0, refIdx := 0 }

/-! Scenario runs used by the counterexample theorems. -/

/-- A job submitted with `respect_robots=True` for a URL whose origin's
robots.txt disallows its path; the GET would succeed if it were ever
made. -/
def policyDeniedRun : ProcessOut :=
  process_url appConfig (initCrawlerState true)
    (fun _ => mkEnv netDisallowSearch
      (HttpOutcome.resp 200 "text/html" "x" []) (RenderOutcome.fail "f"))
    (fun _ => 2) searchUrl true

/-- A job whose every GET returns HTTP 404. -/
def http404Run : ProcessOut :=
  process_url appConfig (initCrawlerState true)
    (fun _ => mkEnv netDisallowSearch
      (HttpOutcome.resp 404 "text/html" "" []) (RenderOutcome.fail "f"))
    (fun _ => 2) pageUrl false

/-- A single crawl whose GET raises a transport error while the Playwright
fallback would succeed. -/
def transportErrorCrawlRun : CrawlOutcome :=
  crawl appConfig (initCrawlerState false)
    (mkEnv netDisallowSearch (HttpOutcome.requestExc "Connection refused")
      (RenderOutcome.ok "<html>hi</html>"))
    searchUrl

/-- C1 counterexample: with robots.txt denying the URL, the job does fail
with the robots error and the fetch chain is never invoked, but the
orchestrator makes 3 crawl attempts with two backoff sleeps — refuting
"transitions directly to Failed after a single attempt, no retry and no
backoff wait". -/
theorem policy_denied_is_retried_cex :
    policyDeniedRun.entry = JobEntry.failed policyDeniedMsg ∧
    policyDeniedRun.httpGets = 0 ∧
    policyDeniedRun.renders = 0 ∧
    policyDeniedRun.crawlCalls = 3 ∧
    policyDeniedRun.backoffs.length = 2 ∧
    ¬(policyDeniedRun.crawlCalls = 1 ∧ policyDeniedRun.backoffs = []) := by
  refine ⟨by decide, by decide, by decide, by decide, by decide, ?_⟩
  intro h
  exact absurd h.1 (by decide)

/-- C2 counterexample: a job receiving `HTTP error: 404` on attempt 1 is
retried — it makes 3 attempts with two backoff sleeps before failing,
refuting "reaches Failed immediately after exactly 1 attempt with no
backoff wait". -/
theorem http404_first_attempt_retried_cex :
    http404Run.entry = JobEntry.failed "HTTP error: 404" ∧
    http404Run.crawlCalls = 3 ∧
    http404Run.backoffs.length = 2 ∧
    ¬(http404Run.crawlCalls = 1 ∧ http404Run.backoffs = []) := by
  refine ⟨by decide, by decide, by decide, ?_⟩
  intro h
  exact absurd h.1 (by decide)

/-- C3 counterexample: when the GET raises a transport error, the render
fallback is invoked directly after a single HTTP GET — there is no
emulated-browser HTTP retry of the GET before it, refuting "the
headless-render fallback is invoked only when that emulated-browser
strategy has also failed". -/
theorem render_fallback_direct_no_emulated_retry_cex :
    transportErrorCrawlRun.renderInvoked = true ∧
    transportErrorCrawlRun.httpGetCount = 1 ∧
    transportErrorCrawlRun.result =
      CrawlResult.ok "https://site.example/search" 200 "text/html" "<html>hi</html>" ∧
    ¬(2 ≤ transportErrorCrawlRun.httpGetCount) := by
  refine ⟨by decide, by decide, by decide, ?_⟩
  intro h
  exact absurd h (by decide)

/-- C4: the robots "cache" stores the one shared parser object for every
origin, and fetching a new origin's robots.txt re-parses that shared
object.  Querying origin `a.example` (whose robots.txt disallows
`/search`) answers false; after a query for `b.example` (allow-all), the
same query for `a.example` answers true — the cached verdict is clobbered
by an unrelated origin. -/
theorem robots_cache_shared_parser_clobbered :
    ((is_crawlable appConfig (initCrawlerState true) netAB urlA).allowed = false) ∧
    ((is_crawlable appConfig
        (is_crawlable appConfig (initCrawlerState true) netAB urlA).state
        netAB urlB).allowed = true) ∧
    ((is_crawlable appConfig
        (is_crawlable appConfig
          (is_crawlable appConfig (initCrawlerState true) netAB urlA).state
          netAB urlB).state
        netAB urlA).allowed = true) := by
  exact ⟨by decide, by decide, by decide⟩

/-! Rate limiter lemmas. -/

theorem respect_crawl_delay_records (delay : Rat) (m : List (String × Rat))
    (d : String) (now : Rat) :
    dictLookup (respect_crawl_delay delay m d now).map d =
      some (respect_crawl_delay delay m d now).returnedAt := by
  unfold respect_crawl_delay
  cases hm : dictLookup m d with
  | some last => simp [dictInsert_lookup]
  | none => simp [dictInsert_lookup]

theorem respect_crawl_delay_gap (delay : Rat) (m : List (String × Rat))
    (d : String) (now last : Rat) (h : dictLookup m d = some last) :
    (respect_crawl_delay delay m d now).returnedAt ≥ last + delay := by
  simp only [respect_crawl_delay, h]
  split
  · rename_i hpos
    linarith
  · rename_i hneg
    rw [not_lt] at hneg
    linarith

/-- C8: the Domain Rate Limiter records the instant at which it lets a
request proceed, and for any two consecutive `_respect_crawl_delay` calls
for the same domain (the second starting from the map the first recorded
into), the recorded instants are at least `delay` apart: the limiter waits
out the remaining delay since the domain's last recorded instant before
proceeding, and records the new instant before returning. -/
theorem rate_limiter_min_gap_between_requests (delay : Rat)
    (m : List (String × Rat)) (d : String) (t1 t2 : Rat) :
    dictLookup (respect_crawl_delay delay m d t1).map d =
      some (respect_crawl_delay delay m d t1).returnedAt ∧
    (respect_crawl_delay delay (respect_crawl_delay delay m d t1).map d t2).returnedAt ≥
      (respect_crawl_delay delay m d t1).returnedAt + delay ∧
    dictLookup
      (respect_crawl_delay delay (respect_crawl_delay delay m d t1).map d t2).map d =
      some (respect_crawl_delay delay (respect_crawl_delay delay m d t1).map d t2).returnedAt := by
  refine ⟨respect_crawl_delay_records delay m d t1, ?_, respect_crawl_delay_records ..⟩
  exact respect_crawl_delay_gap delay _ d t2 _ (respect_crawl_delay_records delay m d t1)

/-- C9: two submissions of the same URL within the same integer wall-clock
second produce the same request id; the second submission's `processing`
entry overwrites the first, and after both background tasks store their
final entries under that shared id, only the later stored entry is
observable. -/
theorem request_id_collision_overwrites_entry (pyHash : String → Int)
    (cache : List (String × JobEntry)) (t : Int) (url : String)
    (e1 e2 : JobEntry) :
    (crawl_url pyHash cache t url).1 =
      (crawl_url pyHash (crawl_url pyHash cache t url).2 t url).1 ∧
    dictLookup (crawl_url pyHash (crawl_url pyHash cache t url).2 t url).2
      (crawl_url pyHash cache t url).1 = some (JobEntry.processing url) ∧
    dictLookup
      (dictInsert
        (dictInsert
          (crawl_url pyHash (crawl_url pyHash cache t url).2 t url).2
          (crawl_url pyHash cache t url).1 e1)
        ((crawl_url pyHash (crawl_url pyHash cache t url).2 t url).1) e2)
      (crawl_url pyHash cache t url).1 = some e2 := by
  refine ⟨rfl, ?_, ?_⟩
  · simp [crawl_url, dictInsert_lookup]
  · simp [crawl_url, dictInsert_lookup]

/-! Robots cache lemmas. -/

theorem getRobotsParser_caches (st : CrawlerState) (net : String → RobotsResp)
    (url : Url) :
    (dictLookup (getRobotsParser st net url).state.robots_cache
      (baseUrlOf url)).isSome = true := by
  unfold getRobotsParser
  cases hm : dictLookup st.robots_cache (baseUrlOf url) with
  | some pid => simp [hm]
  | none => simp [hm, dictLookup]

theorem getRobotsParser_cached (st : CrawlerState) (net : String → RobotsResp)
    (url : Url) (h : (dictLookup st.robots_cache (baseUrlOf url)).isSome = true) :
    (getRobotsParser st net url).fetched = false ∧
    (getRobotsParser st net url).state = st := by
  unfold getRobotsParser
  cases hm : dictLookup st.robots_cache (baseUrlOf url) with
  | some pid => simp [hm]
  | none => simp [hm] at h

theorem runRobotsQueries_fetch_bound (net : String → RobotsResp)
    (urls : List Url) (st : CrawlerState) (o : String) :
    fetchCountFor o (runRobotsQueries net st urls).2 ≤
      (if (dictLookup st.robots_cache o).isSome then 0 else 1) := by
  induction urls generalizing st with
  | nil => simp [runRobotsQueries, fetchCountFor]
  | cons u rest ih =>
    simp only [runRobotsQueries, fetchCountFor, List.filter]
    cases hm : dictLookup st.robots_cache (baseUrlOf u) with
    | some pid =>
      have hstate : (getRobotsParser st net u).state = st :=
        (getRobotsParser_cached st net u (by simp [hm])).2
      have hf : (getRobotsParser st net u).fetched = false :=
        (getRobotsParser_cached st net u (by simp [hm])).1
      simp only [hf, Bool.and_false]
      have := ih st
      simp only [fetchCountFor] at this
      simpa [hstate] using this
    | none =>
      have hf : (getRobotsParser st net u).fetched = true := by
        unfold getRobotsParser
        simp [hm]
      have hcache : (getRobotsParser st net u).state.robots_cache =
          (baseUrlOf u, st.robotsParserId) :: st.robots_cache := by
        unfold getRobotsParser
        simp [hm]
      by_cases he : baseUrlOf u == o
      · have heq : baseUrlOf u = o := by
          exact eq_of_beq he
        have hrest := ih (getRobotsParser st net u).state
        have hlook : (dictLookup (getRobotsParser st net u).state.robots_cache o).isSome = true := by
          rw [hcache]
          simp [dictLookup, he]
        rw [hlook] at hrest
        simp only [fetchCountFor] at hrest
        have hmo : (dictLookup st.robots_cache o).isSome = false := by
          rw [← heq]
          simp [hm]
        simp only [hf, he, Bool.and_true, hmo]
        simp only [if_true] at hrest
        have h0 := Nat.le_zero.mp hrest
        simp [List.length_cons, h0]
      · have hrest := ih (getRobotsParser st net u).state
        have hlook : dictLookup (getRobotsParser st net u).state.robots_cache o =
            dictLookup st.robots_cache o := by
          rw [hcache]
          simp [dictLookup, he]
        rw [hlook] at hrest
        simp only [fetchCountFor] at hrest
        simp only [hf, he, Bool.false_and, if_neg Bool.false_ne_true]
        exact hrest

/-- C7: starting from a freshly constructed crawler, over any sequence of
`_get_robots_parser` queries at most one robots.txt fetch is issued for
any given origin — a repeated query for an already-seen origin is answered
from the cache and never re-fetches. -/
theorem at_most_one_robots_fetch_per_origin (net : String → RobotsResp)
    (urls : List Url) (b : Bool) (o : String) :
    fetchCountFor o (runRobotsQueries net (initCrawlerState b) urls).2 ≤ 1 := by
  have h := runRobotsQueries_fetch_bound net urls (initCrawlerState b) o
  simpa [initCrawlerState, dictLookup] using h

/-! Witnesses: each hypothesized theorem applied at a concrete input. -/

theorem policy_denied_fails_without_fetch_but_retries_witness :
    policyDeniedRun.entry = JobEntry.failed policyDeniedMsg ∧
    policyDeniedRun.httpGets = 0 ∧
    policyDeniedRun.renders = 0 ∧
    policyDeniedRun.crawlCalls = 3 ∧
    policyDeniedRun.backoffs = [(2 : Rat) ^ (1 : Nat) + 2, (2 : Rat) ^ (2 : Nat) + 2] :=
  policy_denied_fails_without_fetch_but_retries appConfig (initCrawlerState true)
    (fun _ => mkEnv netDisallowSearch
      (HttpOutcome.resp 200 "text/html" "x" []) (RenderOutcome.fail "f"))
    (fun _ => 2) searchUrl (by decide)

theorem http404_retried_three_attempts_witness :
    http404Run.entry = JobEntry.failed "HTTP error: 404" ∧
    http404Run.crawlCalls = 3 ∧
    http404Run.renders = 0 ∧
    http404Run.backoffs = [(2 : Rat) ^ (1 : Nat) + 2, (2 : Rat) ^ (2 : Nat) + 2] :=
  http404_retried_three_attempts appConfig (initCrawlerState true)
    (fun _ => mkEnv netDisallowSearch
      (HttpOutcome.resp 404 "text/html" "" []) (RenderOutcome.fail "f"))
    (fun _ => 2) pageUrl false (fun _ => "text/html") (fun _ => "")
    (fun _ => []) (by decide) (fun i _ => rfl)

theorem single_emulated_get_then_render_fallback_witness :
    (crawl appConfig (initCrawlerState false)
      (mkEnv netDisallowSearch (HttpOutcome.requestExc "Connection refused")
        (RenderOutcome.ok "<html>hi</html>")) searchUrl).headersUsed =
      some (emulatedHeaders appConfig 0 0 searchUrl.netloc) ∧
    (crawl appConfig (initCrawlerState false)
      (mkEnv netDisallowSearch (HttpOutcome.requestExc "Connection refused")
        (RenderOutcome.ok "<html>hi</html>")) searchUrl).preSleep = some 1 ∧
    (crawl appConfig (initCrawlerState false)
      (mkEnv netDisallowSearch (HttpOutcome.requestExc "Connection refused")
        (RenderOutcome.ok "<html>hi</html>")) searchUrl).httpGetCount = 1 ∧
    (crawl appConfig (initCrawlerState false)
      (mkEnv netDisallowSearch (HttpOutcome.requestExc "Connection refused")
        (RenderOutcome.ok "<html>hi</html>")) searchUrl).renderInvoked = true ∧
    (crawl appConfig (initCrawlerState false)
      (mkEnv netDisallowSearch (HttpOutcome.requestExc "Connection refused")
        (RenderOutcome.ok "<html>hi</html>")) searchUrl).result =
      renderToResult (urlString searchUrl) (RenderOutcome.ok "<html>hi</html>") ∧
    (crawl appConfig (initCrawlerState false)
      (mkEnv netDisallowSearch
        (HttpOutcome.resp 200 "text/html" "<html>ok</html>" [])
        (RenderOutcome.fail "f")) searchUrl).renderInvoked = false ∧
    (crawl appConfig (initCrawlerState false)
      (mkEnv netDisallowSearch
        (HttpOutcome.resp 200 "text/html" "<html>ok</html>" [])
        (RenderOutcome.fail "f")) searchUrl).httpGetCount = 1 ∧
    (crawl appConfig (initCrawlerState false)
      (mkEnv netDisallowSearch
        (HttpOutcome.resp 200 "text/html" "<html>ok</html>" [])
        (RenderOutcome.fail "f")) searchUrl).result =
      CrawlResult.ok (urlString searchUrl) 200 (strLower "text/html") "<html>ok</html>" :=
  single_emulated_get_then_render_fallback appConfig (initCrawlerState false)
    (mkEnv netDisallowSearch (HttpOutcome.requestExc "Connection refused")
      (RenderOutcome.ok "<html>hi</html>"))
    (mkEnv netDisallowSearch
      (HttpOutcome.resp 200 "text/html" "<html>ok</html>" [])
      (RenderOutcome.fail "f"))
    searchUrl "Connection refused" "text/html" "<html>ok</html>" []
    (by decide) (by decide) (by decide) (by decide) (by decide) rfl rfl
    (by decide)

theorem transport_errors_fail_after_three_attempts_with_backoff_witness :
    (process_url appConfigNoRender (initCrawlerState true)
      (fun _ => mkEnv netDisallowSearch
        (HttpOutcome.requestExc "Connection refused") (RenderOutcome.fail "f"))
      (fun _ => 2) pageUrl false).crawlCalls = 3 ∧
    (process_url appConfigNoRender (initCrawlerState true)
      (fun _ => mkEnv netDisallowSearch
        (HttpOutcome.requestExc "Connection refused") (RenderOutcome.fail "f"))
      (fun _ => 2) pageUrl false).entry = JobEntry.failed "Connection refused" ∧
    (process_url appConfigNoRender (initCrawlerState true)
      (fun _ => mkEnv netDisallowSearch
        (HttpOutcome.requestExc "Connection refused") (RenderOutcome.fail "f"))
      (fun _ => 2) pageUrl false).renders = 0 ∧
    (process_url appConfigNoRender (initCrawlerState true)
      (fun _ => mkEnv netDisallowSearch
        (HttpOutcome.requestExc "Connection refused") (RenderOutcome.fail "f"))
      (fun _ => 2) pageUrl false).backoffs =
      [(2 : Rat) ^ (1 : Nat) + 2, (2 : Rat) ^ (2 : Nat) + 2] ∧
    (2 : Rat) ^ (1 : Nat) ≤ (2 : Rat) ^ (1 : Nat) + 2 ∧
    (2 : Rat) ^ (2 : Nat) ≤ (2 : Rat) ^ (2 : Nat) + 2 :=
  transport_errors_fail_after_three_attempts_with_backoff appConfigNoRender
    (initCrawlerState true)
    (fun _ => mkEnv netDisallowSearch
      (HttpOutcome.requestExc "Connection refused") (RenderOutcome.fail "f"))
    (fun _ => 2) pageUrl false (fun _ => "Connection refused")
    (by decide) (fun i _ => rfl)
    (fun i _ => by
      show strContains "Connection refused" "HTTP error: 403" = false
      decide)
    (by decide)
    (fun i => ⟨by norm_num, by norm_num⟩)

theorem status_and_content_errors_return_immediately_witness :
    (crawl appConfig (initCrawlerState false)
      (mkEnv netDisallowSearch (HttpOutcome.resp 500 "text/html" "" [])
        (RenderOutcome.fail "f")) pageUrl).result =
      CrawlResult.err ("HTTP error: " ++ toString 500) ∧
    (crawl appConfig (initCrawlerState false)
      (mkEnv netDisallowSearch (HttpOutcome.resp 500 "text/html" "" [])
        (RenderOutcome.fail "f")) pageUrl).renderInvoked = false ∧
    (crawl appConfig (initCrawlerState false)
      (mkEnv netDisallowSearch
        (HttpOutcome.resp 200 "application/json" "" [])
        (RenderOutcome.fail "f")) pageUrl).result =
      CrawlResult.err ("Not HTML content: " ++ strLower "application/json") ∧
    (crawl appConfig (initCrawlerState false)
      (mkEnv netDisallowSearch
        (HttpOutcome.resp 200 "application/json" "" [])
        (RenderOutcome.fail "f")) pageUrl).renderInvoked = false ∧
    (crawl appConfig (initCrawlerState false)
      (mkEnv netDisallowSearch (HttpOutcome.requestExc "timeout")
        (RenderOutcome.fail "f")) pageUrl).renderInvoked =
      (appConfig.use_fallback && appConfig.playwright_available) :=
  status_and_content_errors_return_immediately appConfig
    (initCrawlerState false)
    (mkEnv netDisallowSearch (HttpOutcome.resp 500 "text/html" "" [])
      (RenderOutcome.fail "f"))
    (mkEnv netDisallowSearch (HttpOutcome.resp 200 "application/json" "" [])
      (RenderOutcome.fail "f"))
    (mkEnv netDisallowSearch (HttpOutcome.requestExc "timeout")
      (RenderOutcome.fail "f"))
    pageUrl 500 "text/html" "" "application/json" "" "timeout" [] []
    (by decide) (by decide) (by decide) rfl (by decide) rfl (by decide) rfl

end WebCrawlerModel

